import Mathlib

set_option maxHeartbeats 1000000

/-!
Shallow embedding of the DBSetup repository's two backfill scripts,
`backfill_keywords.py` and `backfill_themes_overview.py`.

The scripts are linear fetch-transform-write loops.  Network traffic, the
language-model API and the relational store are modelled at their call
boundary: the HTTP layer is a `FetchResult` value (transport failure or parsed
JSON payload), the store gateway and the enrichment client are function
parameters (dependency injection of the module-level globals `supabase`,
`claude` and the `requests` session), and `time.sleep` calls are counted in a
`sleeps` field instead of blocking.  Every definition mirrors the control flow
of the corresponding Python function.
-/

namespace DBSetup

/-- Result of one HTTP GET as seen by the calling script: either a
transport-kind failure (network error or a non-2xx status raised by
`response.raise_for_status()`, i.e. the `requests.exceptions.RequestException`
path) or a parsed JSON payload. -/
inductive FetchResult (α : Type) where
  | transportError (msg : String)
  | success (data : α)
deriving Repr, DecidableEq

/-- Result of Python's `/` on two numbers: a value, or a raised
ZeroDivisionError when the divisor is zero. -/
inductive PyDivResult where
  | ok (q : Rat)
  | zeroDivisionError
deriving Repr, DecidableEq

/-- Python division: `a / b` raises ZeroDivisionError when `b = 0`. -/
def pyDiv (a b : Rat) : PyDivResult :=
  if b = 0 then .zeroDivisionError else .ok (a / b)

/-- A row of the `titles` table as selected by both scripts:
`id, title, kind, popularity` (popularity is only interpolated into log
lines, so its numeric type is immaterial; we use `Int`). -/
structure Title where
  id : Nat
  title : String
  kind : String
  popularity : Int
deriving Repr, DecidableEq

/-- The `titles` table restricted to the column a backfill writes:
record id paired with the nullable field value. -/
abbrev Store := List (Nat × Option (List String))

namespace BackfillKeywords

/-- One element of the keyword arrays in a TMDB response; the script only
reads `kw["name"]`. -/
structure KwObj where
  name : String
deriving Repr, DecidableEq

/-- Parsed JSON payload of a keywords response.  Key `keywords` is the movie
envelope, key `results` the tv envelope; `none` models a missing key, so
`data.get(k, [])` becomes `(field).getD []`. -/
structure KeywordsData where
  keywords : Option (List KwObj)
  results : Option (List KwObj)
deriving Repr, DecidableEq

/-- URL built by `fetch_tmdb_keywords` (backfill_keywords.py lines 42-45). -/
def keywordsUrl (tmdb_id : Nat) (kind : String) : String :=
  if kind = "movie" then
    s!"https://api.themoviedb.org/3/movie/{tmdb_id}/keywords"
  else
    s!"https://api.themoviedb.org/3/tv/{tmdb_id}/keywords"

/-- `fetch_tmdb_keywords` (lines 29-70) with the HTTP exchange abstracted into
the `resp` argument.  A `RequestException` (or any other exception) is caught
and returns `none`; on success the keyword names are extracted from the
kind-appropriate envelope key, and line 63 (`return keywords if keywords else
None`) collapses an empty extraction to `none` as well. -/
def fetch_tmdb_keywords (resp : FetchResult KeywordsData) (kind : String) :
    Option (List String) :=
  match resp with
  | .transportError _ => none
  | .success data =>
      let keywords :=
        if kind = "movie" then (data.keywords.getD []).map KwObj.name
        else (data.results.getD []).map KwObj.name
      if keywords.isEmpty then none else some keywords

/-- Result of the store-level `update ... execute()` call inside
`update_keywords_in_db`: either the update committed or the store raised. -/
inductive DbOutcome where
  | committed
  | storeError (msg : String)
deriving Repr, DecidableEq

/-- `update_keywords_in_db` (lines 73-92): returns `true` when the store call
goes through and `false` when it raises — the exception never escapes. -/
def update_keywords_in_db (attempt : DbOutcome) : Bool :=
  match attempt with
  | .committed => true
  | .storeError _ => false

/-- The statistics dictionary of `backfill_keywords_batch` (lines 132-138). -/
structure KwStats where
  total : Nat
  success : Nat
  no_keywords_found : Nat
  api_error : Nat
  db_error : Nat
deriving Repr, DecidableEq

/-- Sum of the four per-outcome counters (everything except `total`). -/
def KwStats.outcomeSum (s : KwStats) : Nat :=
  s.success + s.no_keywords_found + s.api_error + s.db_error

/-- Outcome classification of one record, in the spec's vocabulary:
`success ↦ updated`, `no_keywords_found ↦ upstreamEmpty`,
`api_error ↦ upstreamError`, `db_error ↦ persistError`. -/
inductive KwOutcome where
  | updated
  | upstreamEmpty
  | upstreamError
  | persistError
deriving Repr, DecidableEq

/-- Observable state of one engine run: the statistics dictionary, the store
(threaded through the persist calls), the list of persist invocations, the
number of `time.sleep(RATE_LIMIT_DELAY)` calls, and the per-record outcome
trail in batch order. -/
structure KwRun where
  stats : KwStats
  store : Store
  persistCalls : List (Nat × List String)
  sleeps : Nat
  outcomes : List KwOutcome
deriving Repr, DecidableEq

/-- Loop body of `backfill_keywords_batch` (lines 144-178) for one title.
`fetchFn` models the call `fetch_tmdb_keywords(title_id, kind)` (client plus
network); `persistFn` models `update_keywords_in_db(title_id, keywords)`
acting on the store and reporting a boolean.  The two `continue` statements
(api_error, no_keywords_found) skip the `time.sleep` at line 178, so only the
branches that reached the update stage increment `sleeps`. -/
def processTitle (fetchFn : Nat → String → Option (List String))
    (persistFn : Nat → List String → Store → Bool × Store)
    (dry_run : Bool) (r : KwRun) (t : Title) : KwRun :=
  match fetchFn t.id t.kind with
  | none =>
      { r with stats := { r.stats with api_error := r.stats.api_error + 1 },
               outcomes := r.outcomes ++ [.upstreamError] }
  | some keywords =>
      if keywords.isEmpty then
        { r with
            stats := { r.stats with
                        no_keywords_found := r.stats.no_keywords_found + 1 },
            outcomes := r.outcomes ++ [.upstreamEmpty] }
      else
        let r' :=
          if !dry_run then
            let res := persistFn t.id keywords r.store
            if res.1 then
              { r with stats := { r.stats with success := r.stats.success + 1 },
                       store := res.2,
                       persistCalls := r.persistCalls ++ [(t.id, keywords)],
                       outcomes := r.outcomes ++ [KwOutcome.updated] }
            else
              { r with
                  stats := { r.stats with db_error := r.stats.db_error + 1 },
                  store := res.2,
                  persistCalls := r.persistCalls ++ [(t.id, keywords)],
                  outcomes := r.outcomes ++ [KwOutcome.persistError] }
          else
            { r with stats := { r.stats with success := r.stats.success + 1 },
                     outcomes := r.outcomes ++ [KwOutcome.updated] }
        { r' with sleeps := r'.sleeps + 1 }

/-- Initial run state: the stats dictionary of lines 132-138 with
`total = len(titles)` and all counters zero. -/
def initKwRun (titles : List Title) (store : Store) : KwRun :=
  { stats := { total := titles.length, success := 0, no_keywords_found := 0,
               api_error := 0, db_error := 0 },
    store := store, persistCalls := [], sleeps := 0, outcomes := [] }

/-- `backfill_keywords_batch` (lines 121-180): fold the per-title loop body
over the batch. -/
def backfill_keywords_batch (fetchFn : Nat → String → Option (List String))
    (persistFn : Nat → List String → Store → Bool × Store)
    (titles : List Title) (dry_run : Bool) (store : Store) : KwRun :=
  titles.foldl (processTitle fetchFn persistFn dry_run) (initKwRun titles store)

/-- The success-rate line of `print_stats` (line 193):
`stats['success'] / stats['total'] * 100` with Python division semantics —
no guard, so `total = 0` raises ZeroDivisionError. -/
def print_stats_success_rate (stats : KwStats) : PyDivResult :=
  match pyDiv (stats.success : Rat) (stats.total : Rat) with
  | .ok q => .ok (q * 100)
  | .zeroDivisionError => .zeroDivisionError

/-- A fetch behaviour yields a usable value for `t` when it returns a
non-empty keyword list (the branch of lines 163-175). -/
def kwValid (fetchFn : Nat → String → Option (List String)) (t : Title) :
    Bool :=
  !((fetchFn t.id t.kind).getD []).isEmpty

end BackfillKeywords

namespace BackfillThemes

/-- Python `str.split(sep)` on the underlying character list: splitting the
empty text yields `[[]]`, and every separator occurrence starts a new (possibly
empty) group, exactly as in Python. -/
def splitChars (sep : Char) : List Char → List (List Char)
  | [] => [[]]
  | c :: cs =>
      match splitChars sep cs with
      | [] => [[]]
      | g :: gs => if c = sep then [] :: g :: gs else (c :: g) :: gs

/-- Python `str.split(sep)` for a one-character separator. -/
def pySplit (s : String) (sep : Char) : List String :=
  (splitChars sep s.data).map String.mk

/-- Python `str.strip()`: drop leading and trailing whitespace. -/
def pyStrip (s : String) : String :=
  String.mk
    (((s.data.dropWhile Char.isWhitespace).reverse.dropWhile
        Char.isWhitespace).reverse)

/-- Parsed JSON payload of a details response (`GET /{kind}/{id}`); `none`
models a missing `overview` key, so `data.get("overview", "")` becomes
`(overview).getD ""`. -/
structure DetailsData where
  overview : Option String
deriving Repr, DecidableEq

/-- URL built by `fetch_tmdb_overview` (backfill_themes_overview.py lines
45-48). -/
def detailsUrl (tmdb_id : Nat) (kind : String) : String :=
  if kind = "movie" then
    s!"https://api.themoviedb.org/3/movie/{tmdb_id}"
  else
    s!"https://api.themoviedb.org/3/tv/{tmdb_id}"

/-- `fetch_tmdb_overview` (lines 33-68) with the HTTP exchange abstracted into
the `resp` argument: exceptions are caught and return `none`; on success the
`overview` field is read with default `""` and trimmed, and line 61
(`return overview if overview else None`) collapses an empty string to
`none`. -/
def fetch_tmdb_overview (resp : FetchResult DetailsData) : Option String :=
  match resp with
  | .transportError _ => none
  | .success data =>
      let overview := pyStrip (data.overview.getD "")
      if overview = "" then none else some overview

/-- Result of one `claude.messages.create` call: a raised API error, or the
first content block's text. -/
inductive ClaudeResult where
  | apiError (msg : String)
  | response (text : String)
deriving Repr, DecidableEq

/-- The per-candidate filter of line 116:
`t and len(t) > 2 and len(t) < 50`. -/
def themeAccepted (t : String) : Bool :=
  !t.isEmpty && decide (t.length > 2) && decide (t.length < 50)

/-- `generate_themes_with_claude` (lines 71-122) with the API exchange
abstracted into `res` and the module-level `claude` client's availability into
`claudeConfigured`.  The raw text is stripped, split on commas, each piece
stripped, filtered by `themeAccepted`, and line 118
(`return themes[:5] if themes else None`) truncates to five or collapses an
empty survivor list to `none`. -/
def generate_themes_with_claude (claudeConfigured : Bool) (res : ClaudeResult) :
    Option (List String) :=
  if !claudeConfigured then none
  else
    match res with
    | .apiError _ => none
    | .response text =>
        let themes_text := pyStrip text
        let themes := (pySplit themes_text ',').map pyStrip
        let themes := themes.filter themeAccepted
        if themes.isEmpty then none else some (themes.take 5)

/-- A row as selected by `get_titles_missing_themes`: the loop reads `id`,
`title`, `overview` (possibly null) and `genres` (defaulted to `[]`). -/
structure ThTitle where
  id : Nat
  title : String
  overview : Option String
  genres : List String
deriving Repr, DecidableEq

/-- The statistics dictionary of `backfill_themes` (line 233). -/
structure ThStats where
  total : Nat
  success : Nat
  no_overview : Nat
  error : Nat
deriving Repr, DecidableEq

/-- Sum of the three per-outcome counters (everything except `total`). -/
def ThStats.outcomeSum (s : ThStats) : Nat :=
  s.success + s.no_overview + s.error

/-- Observable state of one `backfill_themes` run: statistics, persist
invocations (`update_themes_in_db` calls), and `time.sleep` count. -/
structure ThRun where
  stats : ThStats
  persistCalls : List (Nat × List String)
  sleeps : Nat
deriving Repr, DecidableEq

/-- Loop body of `backfill_themes` (lines 243-273) for one title.  `if not
overview` is true for a null or empty overview; `if not themes` is true when
`generateFn` returned `None` (or an empty list, possible only under a mock);
the two `continue` statements skip the `time.sleep` at line 273. -/
def processThemeTitle
    (generateFn : String → String → List String → Option (List String))
    (persistFn : Nat → List String → Bool) (dry_run : Bool)
    (r : ThRun) (t : ThTitle) : ThRun :=
  let overview := t.overview.getD ""
  if overview = "" then
    { r with stats := { r.stats with no_overview := r.stats.no_overview + 1 } }
  else
    match generateFn t.title overview t.genres with
    | none => { r with stats := { r.stats with error := r.stats.error + 1 } }
    | some themes =>
        if themes.isEmpty then
          { r with stats := { r.stats with error := r.stats.error + 1 } }
        else
          let r' :=
            if !dry_run then
              if persistFn t.id themes then
                { r with
                    stats := { r.stats with success := r.stats.success + 1 },
                    persistCalls := r.persistCalls ++ [(t.id, themes)] }
              else
                { r with
                    stats := { r.stats with error := r.stats.error + 1 },
                    persistCalls := r.persistCalls ++ [(t.id, themes)] }
            else
              { r with
                  stats := { r.stats with success := r.stats.success + 1 } }
          { r' with sleeps := r'.sleeps + 1 }

/-- Initial `backfill_themes` run state (line 233). -/
def initThRun (titles : List ThTitle) : ThRun :=
  { stats := { total := titles.length, success := 0, no_overview := 0,
               error := 0 },
    persistCalls := [], sleeps := 0 }

/-- `backfill_themes` (lines 229-275): when `use_claude` is false or the
module-level `claude` client is not configured (`claudeAvailable = false`),
lines 235-237 return the freshly initialised statistics without processing any
record; otherwise the per-title loop body is folded over the batch. -/
def backfill_themes (claudeAvailable : Bool)
    (generateFn : String → String → List String → Option (List String))
    (persistFn : Nat → List String → Bool)
    (titles : List ThTitle) (dry_run : Bool) (use_claude : Bool) : ThRun :=
  if !use_claude || !claudeAvailable then initThRun titles
  else
    titles.foldl (processThemeTitle generateFn persistFn dry_run)
      (initThRun titles)

/-- The statistics dictionary of `backfill_overviews` (line 189). -/
structure OvStats where
  total : Nat
  success : Nat
  not_found : Nat
  error : Nat
deriving Repr, DecidableEq

/-- Observable state of one `backfill_overviews` run. -/
structure OvRun where
  stats : OvStats
  persistCalls : List (Nat × String)
  sleeps : Nat
deriving Repr, DecidableEq

/-- Loop body of `backfill_overviews` (lines 195-224) for one title.
`fetchFn` models `fetch_tmdb_overview(title_id, kind)`; the two `continue`
statements skip the `time.sleep(TMDB_RATE_LIMIT_DELAY)` at line 224. -/
def processOverviewTitle (fetchFn : Nat → String → Option String)
    (persistFn : Nat → String → Bool) (dry_run : Bool)
    (r : OvRun) (t : Title) : OvRun :=
  match fetchFn t.id t.kind with
  | none => { r with stats := { r.stats with error := r.stats.error + 1 } }
  | some overview =>
      if overview = "" then
        { r with
            stats := { r.stats with not_found := r.stats.not_found + 1 } }
      else
        let r' :=
          if !dry_run then
            if persistFn t.id overview then
              { r with
                  stats := { r.stats with success := r.stats.success + 1 },
                  persistCalls := r.persistCalls ++ [(t.id, overview)] }
            else
              { r with
                  stats := { r.stats with error := r.stats.error + 1 },
                  persistCalls := r.persistCalls ++ [(t.id, overview)] }
          else
            { r with
                stats := { r.stats with success := r.stats.success + 1 } }
        { r' with sleeps := r'.sleeps + 1 }

/-- `backfill_overviews` (lines 187-226). -/
def backfill_overviews (fetchFn : Nat → String → Option String)
    (persistFn : Nat → String → Bool)
    (titles : List Title) (dry_run : Bool) : OvRun :=
  titles.foldl (processOverviewTitle fetchFn persistFn dry_run)
    { stats := { total := titles.length, success := 0, not_found := 0,
                 error := 0 },
      persistCalls := [], sleeps := 0 }

/-- The success-rate line of this script's `print_stats` (lines 293-294):
guarded by `if stats["total"] > 0`, so nothing is computed (and nothing can
raise) for an empty batch. -/
def print_stats_success_rate (stats : ThStats) : Option PyDivResult :=
  if stats.total > 0 then
    some (match pyDiv (stats.success : Rat) (stats.total : Rat) with
          | .ok q => .ok (q * 100)
          | .zeroDivisionError => .zeroDivisionError)
  else none

/-- A generate behaviour yields a usable value for `t` when the overview is
present and non-empty and the generated theme list is non-empty (the branch of
lines 262-271). -/
def thValid
    (generateFn : String → String → List String → Option (List String))
    (t : ThTitle) : Bool :=
  decide (t.overview.getD "" ≠ "") &&
    !((generateFn t.title (t.overview.getD "") t.genres).getD []).isEmpty

/-- A fetch behaviour yields a usable value for `t` when it returns a
non-empty overview (the branch of lines 213-222). -/
def ovValid (fetchFn : Nat → String → Option String) (t : Title) : Bool :=
  decide ((fetchFn t.id t.kind).getD "" ≠ "")

end BackfillThemes

namespace BackfillKeywords

lemma processTitle_stats_total (f : Nat → String → Option (List String))
    (p : Nat → List String → Store → Bool × Store) (d : Bool) (r : KwRun)
    (t : Title) : (processTitle f p d r t).stats.total = r.stats.total := by
  cases hf : f t.id t.kind with
  | none => simp [processTitle, hf]
  | some kws =>
      by_cases hk : kws.isEmpty
      · simp [processTitle, hf, hk]
      · cases d
        · by_cases hp : (p t.id kws r.store).1 <;>
            simp [processTitle, hf, hk, hp]
        · simp [processTitle, hf, hk]

lemma processTitle_outcomeSum (f : Nat → String → Option (List String))
    (p : Nat → List String → Store → Bool × Store) (d : Bool) (r : KwRun)
    (t : Title) :
    (processTitle f p d r t).stats.outcomeSum = r.stats.outcomeSum + 1 := by
  cases hf : f t.id t.kind with
  | none => simp [processTitle, hf, KwStats.outcomeSum]; omega
  | some kws =>
      by_cases hk : kws.isEmpty
      · simp [processTitle, hf, hk, KwStats.outcomeSum]; omega
      · cases d
        · by_cases hp : (p t.id kws r.store).1 <;>
            simp [processTitle, hf, hk, hp, KwStats.outcomeSum] <;> omega
        · simp [processTitle, hf, hk, KwStats.outcomeSum]; omega

lemma processTitle_outcomes_length (f : Nat → String → Option (List String))
    (p : Nat → List String → Store → Bool × Store) (d : Bool) (r : KwRun)
    (t : Title) :
    (processTitle f p d r t).outcomes.length = r.outcomes.length + 1 := by
  cases hf : f t.id t.kind with
  | none => simp [processTitle, hf]
  | some kws =>
      by_cases hk : kws.isEmpty
      · simp [processTitle, hf, hk]
      · cases d
        · by_cases hp : (p t.id kws r.store).1 <;>
            simp [processTitle, hf, hk, hp]
        · simp [processTitle, hf, hk]

lemma processTitle_sleeps (f : Nat → String → Option (List String))
    (p : Nat → List String → Store → Bool × Store) (d : Bool) (r : KwRun)
    (t : Title) :
    (processTitle f p d r t).sleeps =
      r.sleeps + (if kwValid f t then 1 else 0) := by
  cases hf : f t.id t.kind with
  | none => simp [processTitle, hf, kwValid]
  | some kws =>
      by_cases hk : kws.isEmpty
      · simp [processTitle, hf, hk, kwValid]
      · cases d
        · by_cases hp : (p t.id kws r.store).1 <;>
            simp [processTitle, hf, hk, hp, kwValid]
        · simp [processTitle, hf, hk, kwValid]

lemma processTitle_success_db (f : Nat → String → Option (List String))
    (p : Nat → List String → Store → Bool × Store) (d : Bool) (r : KwRun)
    (t : Title) :
    (processTitle f p d r t).stats.success +
        (processTitle f p d r t).stats.db_error =
      r.stats.success + r.stats.db_error +
        (if kwValid f t then 1 else 0) := by
  cases hf : f t.id t.kind with
  | none => simp [processTitle, hf, kwValid]
  | some kws =>
      by_cases hk : kws.isEmpty
      · simp [processTitle, hf, hk, kwValid]
      · cases d
        · by_cases hp : (p t.id kws r.store).1 <;>
            simp [processTitle, hf, hk, hp, kwValid] <;> omega
        · simp [processTitle, hf, hk, kwValid]; omega

lemma processTitle_dry_store (f : Nat → String → Option (List String))
    (p : Nat → List String → Store → Bool × Store) (r : KwRun) (t : Title) :
    (processTitle f p true r t).store = r.store := by
  cases hf : f t.id t.kind with
  | none => simp [processTitle, hf]
  | some kws =>
      by_cases hk : kws.isEmpty <;> simp [processTitle, hf, hk]

lemma processTitle_dry_persistCalls
    (f : Nat → String → Option (List String))
    (p : Nat → List String → Store → Bool × Store) (r : KwRun) (t : Title) :
    (processTitle f p true r t).persistCalls = r.persistCalls := by
  cases hf : f t.id t.kind with
  | none => simp [processTitle, hf]
  | some kws =>
      by_cases hk : kws.isEmpty <;> simp [processTitle, hf, hk]

lemma processTitle_dry_success (f : Nat → String → Option (List String))
    (p : Nat → List String → Store → Bool × Store) (r : KwRun) (t : Title) :
    (processTitle f p true r t).stats.success =
      r.stats.success + (if kwValid f t then 1 else 0) := by
  cases hf : f t.id t.kind with
  | none => simp [processTitle, hf, kwValid]
  | some kws =>
      by_cases hk : kws.isEmpty <;> simp [processTitle, hf, hk, kwValid]

lemma kw_foldl_total (f : Nat → String → Option (List String))
    (p : Nat → List String → Store → Bool × Store) (d : Bool) :
    ∀ (ts : List Title) (r : KwRun),
      (ts.foldl (processTitle f p d) r).stats.total = r.stats.total := by
  intro ts
  induction ts with
  | nil => intro r; rfl
  | cons t ts ih =>
      intro r
      rw [List.foldl_cons, ih, processTitle_stats_total]

lemma kw_foldl_outcomeSum (f : Nat → String → Option (List String))
    (p : Nat → List String → Store → Bool × Store) (d : Bool) :
    ∀ (ts : List Title) (r : KwRun),
      (ts.foldl (processTitle f p d) r).stats.outcomeSum =
        r.stats.outcomeSum + ts.length := by
  intro ts
  induction ts with
  | nil => intro r; rfl
  | cons t ts ih =>
      intro r
      rw [List.foldl_cons, ih, processTitle_outcomeSum, List.length_cons]
      omega

lemma kw_foldl_outcomes_length (f : Nat → String → Option (List String))
    (p : Nat → List String → Store → Bool × Store) (d : Bool) :
    ∀ (ts : List Title) (r : KwRun),
      (ts.foldl (processTitle f p d) r).outcomes.length =
        r.outcomes.length + ts.length := by
  intro ts
  induction ts with
  | nil => intro r; rfl
  | cons t ts ih =>
      intro r
      rw [List.foldl_cons, ih, processTitle_outcomes_length, List.length_cons]
      omega

lemma kw_foldl_sleeps (f : Nat → String → Option (List String))
    (p : Nat → List String → Store → Bool × Store) (d : Bool) :
    ∀ (ts : List Title) (r : KwRun),
      (ts.foldl (processTitle f p d) r).sleeps =
        r.sleeps + ts.countP (kwValid f) := by
  intro ts
  induction ts with
  | nil => intro r; rfl
  | cons t ts ih =>
      intro r
      rw [List.foldl_cons, ih, processTitle_sleeps, List.countP_cons]
      by_cases h : kwValid f t <;> simp [h] <;> omega

lemma kw_foldl_success_db (f : Nat → String → Option (List String))
    (p : Nat → List String → Store → Bool × Store) (d : Bool) :
    ∀ (ts : List Title) (r : KwRun),
      (ts.foldl (processTitle f p d) r).stats.success +
          (ts.foldl (processTitle f p d) r).stats.db_error =
        r.stats.success + r.stats.db_error + ts.countP (kwValid f) := by
  intro ts
  induction ts with
  | nil => intro r; rfl
  | cons t ts ih =>
      intro r
      rw [List.foldl_cons, ih, processTitle_success_db, List.countP_cons]
      by_cases h : kwValid f t <;> simp [h] <;> omega

lemma kw_foldl_dry_store (f : Nat → String → Option (List String))
    (p : Nat → List String → Store → Bool × Store) :
    ∀ (ts : List Title) (r : KwRun),
      (ts.foldl (processTitle f p true) r).store = r.store := by
  intro ts
  induction ts with
  | nil => intro r; rfl
  | cons t ts ih =>
      intro r
      rw [List.foldl_cons, ih, processTitle_dry_store]

lemma kw_foldl_dry_persistCalls (f : Nat → String → Option (List String))
    (p : Nat → List String → Store → Bool × Store) :
    ∀ (ts : List Title) (r : KwRun),
      (ts.foldl (processTitle f p true) r).persistCalls = r.persistCalls := by
  intro ts
  induction ts with
  | nil => intro r; rfl
  | cons t ts ih =>
      intro r
      rw [List.foldl_cons, ih, processTitle_dry_persistCalls]

lemma kw_foldl_dry_success (f : Nat → String → Option (List String))
    (p : Nat → List String → Store → Bool × Store) :
    ∀ (ts : List Title) (r : KwRun),
      (ts.foldl (processTitle f p true) r).stats.success =
        r.stats.success + ts.countP (kwValid f) := by
  intro ts
  induction ts with
  | nil => intro r; rfl
  | cons t ts ih =>
      intro r
      rw [List.foldl_cons, ih, processTitle_dry_success, List.countP_cons]
      by_cases h : kwValid f t <;> simp [h] <;> omega

end BackfillKeywords

namespace BackfillThemes

lemma processThemeTitle_stats_total
    (g : String → String → List String → Option (List String))
    (p : Nat → List String → Bool) (d : Bool) (r : ThRun) (t : ThTitle) :
    (processThemeTitle g p d r t).stats.total = r.stats.total := by
  by_cases ho : t.overview.getD "" = ""
  · simp [processThemeTitle, ho]
  · cases hg : g t.title (t.overview.getD "") t.genres with
    | none => simp [processThemeTitle, ho, hg]
    | some themes =>
        by_cases hk : themes.isEmpty
        · simp [processThemeTitle, ho, hg, hk]
        · cases d
          · by_cases hp : p t.id themes <;>
              simp [processThemeTitle, ho, hg, hk, hp]
          · simp [processThemeTitle, ho, hg, hk]

lemma processThemeTitle_outcomeSum
    (g : String → String → List String → Option (List String))
    (p : Nat → List String → Bool) (d : Bool) (r : ThRun) (t : ThTitle) :
    (processThemeTitle g p d r t).stats.outcomeSum =
      r.stats.outcomeSum + 1 := by
  by_cases ho : t.overview.getD "" = ""
  · simp [processThemeTitle, ho, ThStats.outcomeSum]; omega
  · cases hg : g t.title (t.overview.getD "") t.genres with
    | none => simp [processThemeTitle, ho, hg, ThStats.outcomeSum]; omega
    | some themes =>
        by_cases hk : themes.isEmpty
        · simp [processThemeTitle, ho, hg, hk, ThStats.outcomeSum]; omega
        · cases d
          · by_cases hp : p t.id themes <;>
              simp [processThemeTitle, ho, hg, hk, hp, ThStats.outcomeSum] <;>
              omega
          · simp [processThemeTitle, ho, hg, hk, ThStats.outcomeSum]; omega

lemma processThemeTitle_dry_persistCalls
    (g : String → String → List String → Option (List String))
    (p : Nat → List String → Bool) (r : ThRun) (t : ThTitle) :
    (processThemeTitle g p true r t).persistCalls = r.persistCalls := by
  by_cases ho : t.overview.getD "" = ""
  · simp [processThemeTitle, ho]
  · cases hg : g t.title (t.overview.getD "") t.genres with
    | none => simp [processThemeTitle, ho, hg]
    | some themes =>
        by_cases hk : themes.isEmpty <;> simp [processThemeTitle, ho, hg, hk]

lemma processThemeTitle_dry_success
    (g : String → String → List String → Option (List String))
    (p : Nat → List String → Bool) (r : ThRun) (t : ThTitle) :
    (processThemeTitle g p true r t).stats.success =
      r.stats.success + (if thValid g t then 1 else 0) := by
  by_cases ho : t.overview.getD "" = ""
  · simp [processThemeTitle, ho, thValid]
  · cases hg : g t.title (t.overview.getD "") t.genres with
    | none => simp [processThemeTitle, ho, hg, thValid]
    | some themes =>
        by_cases hk : themes.isEmpty <;>
          simp [processThemeTitle, ho, hg, hk, thValid]

lemma th_foldl_total
    (g : String → String → List String → Option (List String))
    (p : Nat → List String → Bool) (d : Bool) :
    ∀ (ts : List ThTitle) (r : ThRun),
      (ts.foldl (processThemeTitle g p d) r).stats.total = r.stats.total := by
  intro ts
  induction ts with
  | nil => intro r; rfl
  | cons t ts ih =>
      intro r
      rw [List.foldl_cons, ih, processThemeTitle_stats_total]

lemma th_foldl_outcomeSum
    (g : String → String → List String → Option (List String))
    (p : Nat → List String → Bool) (d : Bool) :
    ∀ (ts : List ThTitle) (r : ThRun),
      (ts.foldl (processThemeTitle g p d) r).stats.outcomeSum =
        r.stats.outcomeSum + ts.length := by
  intro ts
  induction ts with
  | nil => intro r; rfl
  | cons t ts ih =>
      intro r
      rw [List.foldl_cons, ih, processThemeTitle_outcomeSum, List.length_cons]
      omega

lemma th_foldl_dry_persistCalls
    (g : String → String → List String → Option (List String))
    (p : Nat → List String → Bool) :
    ∀ (ts : List ThTitle) (r : ThRun),
      (ts.foldl (processThemeTitle g p true) r).persistCalls =
        r.persistCalls := by
  intro ts
  induction ts with
  | nil => intro r; rfl
  | cons t ts ih =>
      intro r
      rw [List.foldl_cons, ih, processThemeTitle_dry_persistCalls]

lemma th_foldl_dry_success
    (g : String → String → List String → Option (List String))
    (p : Nat → List String → Bool) :
    ∀ (ts : List ThTitle) (r : ThRun),
      (ts.foldl (processThemeTitle g p true) r).stats.success =
        r.stats.success + ts.countP (thValid g) := by
  intro ts
  induction ts with
  | nil => intro r; rfl
  | cons t ts ih =>
      intro r
      rw [List.foldl_cons, ih, processThemeTitle_dry_success, List.countP_cons]
      by_cases h : thValid g t <;> simp [h] <;> omega

lemma processOverviewTitle_sleeps (f : Nat → String → Option String)
    (p : Nat → String → Bool) (d : Bool) (r : OvRun) (t : Title) :
    (processOverviewTitle f p d r t).sleeps =
      r.sleeps + (if ovValid f t then 1 else 0) := by
  cases hf : f t.id t.kind with
  | none => simp [processOverviewTitle, hf, ovValid]
  | some o =>
      by_cases hk : o = ""
      · simp [processOverviewTitle, hf, hk, ovValid]
      · cases d
        · by_cases hp : p t.id o <;>
            simp [processOverviewTitle, hf, hk, hp, ovValid]
        · simp [processOverviewTitle, hf, hk, ovValid]

lemma ov_foldl_sleeps (f : Nat → String → Option String)
    (p : Nat → String → Bool) (d : Bool) :
    ∀ (ts : List Title) (r : OvRun),
      (ts.foldl (processOverviewTitle f p d) r).sleeps =
        r.sleeps + ts.countP (ovValid f) := by
  intro ts
  induction ts with
  | nil => intro r; rfl
  | cons t ts ih =>
      intro r
      rw [List.foldl_cons, ih, processOverviewTitle_sleeps, List.countP_cons]
      by_cases h : ovValid f t <;> simp [h] <;> omega

lemma generate_response_eq (raw : String) :
    generate_themes_with_claude true (.response raw) =
      (if (((pySplit (pyStrip raw) ',').map pyStrip).filter
            themeAccepted).isEmpty
       then none
       else
        some ((((pySplit (pyStrip raw) ',').map pyStrip).filter
          themeAccepted).take 5)) := by
  simp [generate_themes_with_claude]

lemma generate_length_le (raw : String) :
    ((generate_themes_with_claude true (.response raw)).getD []).length
      ≤ 5 := by
  rw [generate_response_eq]
  by_cases h :
      (((pySplit (pyStrip raw) ',').map pyStrip).filter
        themeAccepted).isEmpty
  · simp [h]
  · simp [h, List.length_take]

lemma generate_all_accepted (raw : String) :
    ((generate_themes_with_claude true (.response raw)).getD []).all
      themeAccepted = true := by
  rw [generate_response_eq]
  by_cases h :
      (((pySplit (pyStrip raw) ',').map pyStrip).filter
        themeAccepted).isEmpty
  · simp [h]
  · simp only [h, Bool.false_eq_true, if_false, Option.getD_some,
      List.all_eq_true]
    intro x hx
    exact List.of_mem_filter (List.mem_of_mem_take hx)

lemma generate_none_iff (raw : String) :
    generate_themes_with_claude true (.response raw) = none ↔
      ((pySplit (pyStrip raw) ',').map pyStrip).filter themeAccepted
        = [] := by
  rw [generate_response_eq]
  by_cases h :
      (((pySplit (pyStrip raw) ',').map pyStrip).filter
        themeAccepted).isEmpty
  · simp_all [List.isEmpty_iff]
  · simp_all [List.isEmpty_iff]

end BackfillThemes

end DBSetup


namespace DBSetup

open BackfillKeywords BackfillThemes

/-- Claim C1 (code bug witness).  The claim says the metadata client signals a
transport-kind failure distinctly from a successful-but-empty result, so that
the engine classifies the former upstream-error and the latter upstream-empty.
In the code, line 63 of `fetch_tmdb_keywords` returns `None` for a successful
response with an empty keyword list — the very value it returns after a
transport failure — so when the engine is wired to the real client a
successful-but-empty fetch is counted `api_error` (upstream-error) and the
`no_keywords_found` branch is unreachable.  The last conjunct shows the
engine itself does realise the spec's three-record scenario when the client is
mocked to return the empty list directly, confirming the claim describes the
intended behaviour. -/
theorem fetch_tmdb_keywords_collapses_empty_to_error :
    fetch_tmdb_keywords
        (.success { keywords := some [], results := none }) "movie" = none ∧
    fetch_tmdb_keywords (.transportError "connection reset") "movie" = none ∧
    (backfill_keywords_batch
        (fun _ _ =>
          fetch_tmdb_keywords
            (.success { keywords := some [], results := none }) "movie")
        (fun _ _ s => (true, s))
        [{ id := 603, title := "The Matrix", kind := "movie",
           popularity := 90 }] false []).stats =
      { total := 1, success := 0, no_keywords_found := 0, api_error := 1,
        db_error := 0 } ∧
    (backfill_keywords_batch
        (fun i _ => if i = 1 then some ["noir", "heist"]
                    else if i = 2 then some [] else none)
        (fun _ _ s => (true, s))
        [{ id := 1, title := "A", kind := "movie", popularity := 90 },
         { id := 2, title := "B", kind := "movie", popularity := 10 },
         { id := 3, title := "C", kind := "tv", popularity := 50 }]
        false []).stats =
      { total := 3, success := 1, no_keywords_found := 1, api_error := 1,
        db_error := 0 } :=
  ⟨by decide, by decide, by decide, by decide⟩

/-- Claim C2 counterexample.  A one-record batch whose fetch fails with a
transport error is processed without any `time.sleep`: the `continue` at line
157 jumps past the sleep at line 178, so `sleeps = 0` although one record was
processed — refuting the claim that the pacing delay follows every record
uniformly regardless of outcome. -/
theorem pacing_skipped_on_upstream_error_cex :
    (backfill_keywords_batch (fun _ _ => none) (fun _ _ s => (true, s))
        [{ id := 1, title := "A", kind := "movie", popularity := 0 }]
        false []).stats.total = 1 ∧
    (backfill_keywords_batch (fun _ _ => none) (fun _ _ s => (true, s))
        [{ id := 1, title := "A", kind := "movie", popularity := 0 }]
        false []).sleeps = 0 :=
  ⟨by decide, by decide⟩

/-- Claim C2, amended.  In both engines the pacing delay runs only after a
record that reached the valid-value stage (a non-empty fetch result): the
number of sleeps equals the count of such records, and for the keywords engine
it equals `success + db_error` — so the delay is uniform across updated and
persist-error outcomes (and dry runs) but is skipped for upstream-error and
upstream-empty records, whose `continue` bypasses the sleep. -/
theorem pacing_only_after_persist_stage :
    (∀ (f : Nat → String → Option (List String))
        (p : Nat → List String → Store → Bool × Store)
        (ts : List Title) (d : Bool) (s : Store),
        (backfill_keywords_batch f p ts d s).sleeps =
          ts.countP (kwValid f) ∧
        (backfill_keywords_batch f p ts d s).sleeps =
          (backfill_keywords_batch f p ts d s).stats.success +
            (backfill_keywords_batch f p ts d s).stats.db_error) ∧
    (∀ (f : Nat → String → Option String) (p : Nat → String → Bool)
        (ts : List Title) (d : Bool),
        (backfill_overviews f p ts d).sleeps = ts.countP (ovValid f)) := by
  constructor
  · intro f p ts d s
    constructor
    · unfold backfill_keywords_batch
      rw [kw_foldl_sleeps]
      simp [initKwRun]
    · unfold backfill_keywords_batch
      rw [kw_foldl_sleeps, kw_foldl_success_db]
      simp [initKwRun]
  · intro f p ts d
    unfold backfill_overviews
    rw [ov_foldl_sleeps]
    simp

/-- Claim C3 counterexample.  When the enrichment client is not configured,
`backfill_themes` returns at lines 235-237 with every outcome counter zero
while `total` is the batch length, so on a one-record batch the per-outcome
counts sum to 0 ≠ 1 = total, and no record received an outcome — refuting the
claim as stated for every batch. -/
theorem themes_counts_dont_sum_when_claude_missing_cex :
    (backfill_themes false (fun _ _ _ => some ["revenge"]) (fun _ _ => true)
        [{ id := 1, title := "A", overview := some "plot", genres := [] }]
        false true).stats =
      { total := 1, success := 0, no_overview := 0, error := 0 } ∧
    ¬ ((backfill_themes false (fun _ _ _ => some ["revenge"])
          (fun _ _ => true)
          [{ id := 1, title := "A", overview := some "plot", genres := [] }]
          false true).stats.outcomeSum =
        (backfill_themes false (fun _ _ _ => some ["revenge"])
          (fun _ _ => true)
          [{ id := 1, title := "A", overview := some "plot", genres := [] }]
          false true).stats.total) :=
  ⟨by decide, by decide⟩

/-- Claim C3, amended.  The keywords engine always produces exactly one
outcome per record and its four per-outcome counts sum to the batch length;
the themes engine does so whenever its enrichment client is enabled and
configured; when the client is missing it instead returns immediately with
all per-outcome counts zero and `total` still set to the batch length. -/
theorem outcome_counts_sum_to_batch_length :
    (∀ (f : Nat → String → Option (List String))
        (p : Nat → List String → Store → Bool × Store)
        (ts : List Title) (d : Bool) (s : Store),
        (backfill_keywords_batch f p ts d s).stats.total = ts.length ∧
        (backfill_keywords_batch f p ts d s).stats.outcomeSum = ts.length ∧
        (backfill_keywords_batch f p ts d s).outcomes.length = ts.length) ∧
    (∀ (g : String → String → List String → Option (List String))
        (p : Nat → List String → Bool) (ts : List ThTitle) (d : Bool),
        (backfill_themes true g p ts d true).stats.total = ts.length ∧
        (backfill_themes true g p ts d true).stats.outcomeSum = ts.length) ∧
    (∀ (g : String → String → List String → Option (List String))
        (p : Nat → List String → Bool) (ts : List ThTitle) (d u : Bool),
        (backfill_themes false g p ts d u).stats =
          { total := ts.length, success := 0, no_overview := 0,
            error := 0 }) := by
  refine ⟨?_, ?_, ?_⟩
  · intro f p ts d s
    refine ⟨?_, ?_, ?_⟩
    · unfold backfill_keywords_batch
      rw [kw_foldl_total]
      rfl
    · unfold backfill_keywords_batch
      rw [kw_foldl_outcomeSum]
      simp [initKwRun, KwStats.outcomeSum]
    · unfold backfill_keywords_batch
      rw [kw_foldl_outcomes_length]
      simp [initKwRun]
  · intro g p ts d
    have hrun : backfill_themes true g p ts d true =
        ts.foldl (processThemeTitle g p d) (initThRun ts) := by
      simp [backfill_themes]
    rw [hrun]
    constructor
    · rw [th_foldl_total]
      rfl
    · rw [th_foldl_outcomeSum]
      simp [initThRun, ThStats.outcomeSum]
  · intro g p ts d u
    simp [backfill_themes, initThRun]

/-- Claim C4 counterexample.  A raw response whose candidates all fail the
length filter makes `generate_themes_with_claude` return `None` — the same
value as a failed API call — and `backfill_themes` then counts the record in
its `error` bucket; no counter distinct from the transport-failure bucket is
incremented, refuting the claim that a zero-survivor record is classified
upstream-empty. -/
theorem zero_survivor_tags_counted_as_error_cex :
    generate_themes_with_claude true (.response "a, xx") = none ∧
    generate_themes_with_claude true (.apiError "overloaded") = none ∧
    (backfill_themes true
        (fun _ _ _ => generate_themes_with_claude true (.response "a, xx"))
        (fun _ _ => true)
        [{ id := 1, title := "Heat", overview := some "plot", genres := [] }]
        false true).stats =
      { total := 1, success := 0, no_overview := 0, error := 1 } :=
  ⟨by decide, by decide, by decide⟩

/-- Claim C4, amended.  The raw comma-separated response is split on commas,
each candidate trimmed, and kept only when its length is strictly between 2
and 50; the result is truncated to at most 5 tags, and on the spec's sample
input the accepted list is exactly `["revenge", "redemption"]`.  When zero
candidates survive the generator returns `None` — indistinguishable from a
failed call — and the engine counts the record in its `error` bucket rather
than as a distinct upstream-empty outcome. -/
theorem tag_validation_rule :
    generate_themes_with_claude true (.response
        "a, revenge, redemption, xx, this-is-a-very-long-tag-that-exceeds-the-fifty-character-sanity-limit-threshold")
      = some ["revenge", "redemption"] ∧
    (∀ raw : String,
        ((generate_themes_with_claude true (.response raw)).getD []).length
          ≤ 5) ∧
    (∀ raw : String,
        ((generate_themes_with_claude true (.response raw)).getD []).all
          themeAccepted = true) ∧
    (∀ raw : String,
        generate_themes_with_claude true (.response raw) = none ↔
          ((pySplit (pyStrip raw) ',').map pyStrip).filter themeAccepted
            = []) ∧
    (backfill_themes true
        (fun _ _ _ => generate_themes_with_claude true (.response "xx"))
        (fun _ _ => true)
        [{ id := 7, title := "Se7en", overview := some "plot",
           genres := [] }] false true).stats =
      { total := 1, success := 0, no_overview := 0, error := 1 } :=
  ⟨by decide, generate_length_le, generate_all_accepted, generate_none_iff,
    by decide⟩

/-- Claim C5 (code bug witness).  The extraction is branched on `kind`: movie
responses are read through key `keywords`, anything else through key
`results`, and a missing key never crashes (the extraction defaults to the
empty list).  But the claim's "missing key yields EmptyResult" fails: line 63
collapses the empty extraction to `None`, the transport-failure value, so the
engine classifies such a record `api_error` (upstream-error) instead of
`no_keywords_found` (upstream-empty). -/
theorem missing_envelope_key_classified_upstream_error :
    fetch_tmdb_keywords
        (.success { keywords := some [{ name := "noir" }],
                    results := some [{ name := "heist" }] }) "movie" =
      some ["noir"] ∧
    fetch_tmdb_keywords
        (.success { keywords := some [{ name := "noir" }],
                    results := some [{ name := "heist" }] }) "tv" =
      some ["heist"] ∧
    fetch_tmdb_keywords
        (.success { keywords := some [{ name := "noir" }],
                    results := none }) "tv" = none ∧
    fetch_tmdb_keywords (.transportError "connection refused") "tv" = none ∧
    (backfill_keywords_batch
        (fun _ _ =>
          fetch_tmdb_keywords
            (.success { keywords := some [{ name := "noir" }],
                        results := none }) "tv")
        (fun _ _ s => (true, s))
        [{ id := 1396, title := "Breaking Bad", kind := "tv",
           popularity := 80 }] false []).stats =
      { total := 1, success := 0, no_keywords_found := 0, api_error := 1,
        db_error := 0 } :=
  ⟨by decide, by decide, by decide, by decide, by decide⟩

/-- Claim C6, confirmed.  With `dry_run = true` neither engine ever invokes
its persist function (the list of persist invocations is empty, so the store
is untouched), yet every record whose enrichment yielded a valid value is
still counted in `success` (the spec's `updated`). -/
theorem dry_run_never_persists :
    (∀ (f : Nat → String → Option (List String))
        (p : Nat → List String → Store → Bool × Store)
        (ts : List Title) (s : Store),
        (backfill_keywords_batch f p ts true s).persistCalls = [] ∧
        (backfill_keywords_batch f p ts true s).stats.success =
          ts.countP (kwValid f)) ∧
    (∀ (g : String → String → List String → Option (List String))
        (p : Nat → List String → Bool) (ts : List ThTitle),
        (backfill_themes true g p ts true true).persistCalls = [] ∧
        (backfill_themes true g p ts true true).stats.success =
          ts.countP (thValid g)) := by
  constructor
  · intro f p ts s
    constructor
    · unfold backfill_keywords_batch
      rw [kw_foldl_dry_persistCalls]
      rfl
    · unfold backfill_keywords_batch
      rw [kw_foldl_dry_success]
      simp [initKwRun]
  · intro g p ts
    have hrun : backfill_themes true g p ts true true =
        ts.foldl (processThemeTitle g p true) (initThRun ts) := by
      simp [backfill_themes]
    rw [hrun]
    constructor
    · rw [th_foldl_dry_persistCalls]
      rfl
    · rw [th_foldl_dry_success]
      simp [initThRun]

/-- Claim C7, confirmed.  `update_keywords_in_db` returns `false` instead of
raising on any store-level error; the engine produces exactly one outcome per
record for arbitrary fetch and persist behaviours (so no per-record failure
can abort the batch); and in a concrete batch where the first record's fetch
fails with a transport error and the second record's persist fails, the third
record is still processed and updated. -/
theorem per_record_errors_recovered_locally :
    (∀ msg, update_keywords_in_db (.storeError msg) = false) ∧
    (∀ (f : Nat → String → Option (List String))
        (p : Nat → List String → Store → Bool × Store)
        (ts : List Title) (d : Bool) (s : Store),
        (backfill_keywords_batch f p ts d s).outcomes.length = ts.length) ∧
    (backfill_keywords_batch
        (fun i _ => if i = 1 then none else some ["k"])
        (fun i _ s => (decide (i ≠ 2), s))
        [{ id := 1, title := "A", kind := "movie", popularity := 0 },
         { id := 2, title := "B", kind := "movie", popularity := 0 },
         { id := 3, title := "C", kind := "tv", popularity := 0 }]
        false []).outcomes =
      [.upstreamError, .persistError, .updated] ∧
    (backfill_keywords_batch
        (fun i _ => if i = 1 then none else some ["k"])
        (fun i _ s => (decide (i ≠ 2), s))
        [{ id := 1, title := "A", kind := "movie", popularity := 0 },
         { id := 2, title := "B", kind := "movie", popularity := 0 },
         { id := 3, title := "C", kind := "tv", popularity := 0 }]
        false []).stats =
      { total := 3, success := 1, no_keywords_found := 0, api_error := 1,
        db_error := 1 } := by
  refine ⟨fun msg => rfl, ?_, by decide, by decide⟩
  intro f p ts d s
  unfold backfill_keywords_batch
  rw [kw_foldl_outcomes_length]
  simp [initKwRun]

/-- Claim C8, confirmed.  A dry run leaves the store exactly as it was, so
running the engine twice on the same store state with `dry_run = true`
produces identical statistics. -/
theorem dry_run_idempotent_statistics :
    ∀ (f : Nat → String → Option (List String))
      (p : Nat → List String → Store → Bool × Store)
      (ts : List Title) (s : Store),
      (backfill_keywords_batch f p ts true s).store = s ∧
      (backfill_keywords_batch f p ts true
          ((backfill_keywords_batch f p ts true s).store)).stats =
        (backfill_keywords_batch f p ts true s).stats := by
  intro f p ts s
  have h : (backfill_keywords_batch f p ts true s).store = s := by
    unfold backfill_keywords_batch
    rw [kw_foldl_dry_store]
    rfl
  exact ⟨h, by rw [h]⟩


/-- Claim C9, confirmed.  Every kind other than exactly `"movie"` — including
`"series"`, an unknown string or the empty string — is routed to the tv
endpoint of both fetchers, and the keyword extraction then reads the tv
envelope key `results`; neither fetcher validates `kind`. -/
theorem non_movie_kind_routed_to_tv :
    ∀ (tmdb_id : Nat) (kind : String), kind ≠ "movie" →
      keywordsUrl tmdb_id kind =
        s!"https://api.themoviedb.org/3/tv/{tmdb_id}/keywords" ∧
      detailsUrl tmdb_id kind =
        s!"https://api.themoviedb.org/3/tv/{tmdb_id}" ∧
      ∀ data : KeywordsData,
        fetch_tmdb_keywords (.success data) kind =
          (if ((data.results.getD []).map KwObj.name).isEmpty then none
           else some ((data.results.getD []).map KwObj.name)) := by
  intro tmdb_id kind h
  refine ⟨?_, ?_, ?_⟩
  · simp [keywordsUrl, h]
  · simp [detailsUrl, h]
  · intro data
    simp [fetch_tmdb_keywords, h]

/-- Witness for claim C9 at `kind = "series"` and `kind = ""`. -/
theorem non_movie_kind_routed_to_tv_witness :
    keywordsUrl 1396 "series" =
      "https://api.themoviedb.org/3/tv/1396/keywords" ∧
    detailsUrl 1396 "series" = "https://api.themoviedb.org/3/tv/1396" ∧
    fetch_tmdb_keywords
        (.success { keywords := some [{ name := "noir" }],
                    results := some [{ name := "heist" }] }) "series" =
      some ["heist"] ∧
    keywordsUrl 42 "" = "https://api.themoviedb.org/3/tv/42/keywords" := by
  have h := non_movie_kind_routed_to_tv 1396 "series" (by decide)
  have h2 := non_movie_kind_routed_to_tv 42 "" (by decide)
  refine ⟨h.1.trans (by decide), h.2.1.trans (by decide), ?_,
    h2.1.trans (by decide)⟩
  rw [h.2.2]
  decide

/-- Claim C10, confirmed.  The keywords script's statistics printer computes
`success / total` with no guard and therefore raises ZeroDivisionError on
statistics with `total = 0`, while the themes/overview script's printer
computes the rate only when `total > 0` and can never raise. -/
theorem success_rate_zero_division :
    (∀ s : KwStats, s.total = 0 →
        BackfillKeywords.print_stats_success_rate s = .zeroDivisionError) ∧
    (∀ s : ThStats, s.total = 0 →
        BackfillThemes.print_stats_success_rate s = none) ∧
    (∀ s : ThStats,
        BackfillThemes.print_stats_success_rate s ≠
          some .zeroDivisionError) := by
  refine ⟨?_, ?_, ?_⟩
  · intro s h
    simp [BackfillKeywords.print_stats_success_rate, pyDiv, h]
  · intro s h
    simp [BackfillThemes.print_stats_success_rate, h]
  · intro s
    by_cases h : s.total > 0
    · have hne : (s.total : Rat) ≠ 0 := by
        exact_mod_cast Nat.pos_iff_ne_zero.mp h
      simp [BackfillThemes.print_stats_success_rate, h, pyDiv, hne]
    · simp [BackfillThemes.print_stats_success_rate, h]

/-- Witness for claim C10 on empty-batch statistics. -/
theorem success_rate_zero_division_witness :
    BackfillKeywords.print_stats_success_rate
        { total := 0, success := 0, no_keywords_found := 0, api_error := 0,
          db_error := 0 } = .zeroDivisionError ∧
    BackfillThemes.print_stats_success_rate
        { total := 0, success := 0, no_overview := 0, error := 0 } = none :=
  ⟨success_rate_zero_division.1 _ rfl, success_rate_zero_division.2.1 _ rfl⟩

end DBSetup
